import Mathlib

/-!
Shallow embedding of the claude-sessions daemon (Rust): session lifecycle
state, persistence and recovery classification, IPC request dispatch, and
PTY input writing, together with theorems checking the specification's
claims against the embedded code. Rust HashMaps are modelled as association
lists, UUIDs by their canonical string form, and OS / library boundaries
(the liveness syscall, PTY spawning, UUID generation) as injected
parameters, matching the spec's "injectable boundary" design note.
-/

namespace ClaudeSessions

/-- Session identifier: a 128-bit UUID (uuid crate), modelled by its
canonical hyphenated string form, which is exactly what the serde
serialization and the IPC wire format carry. -/
abbrev Uuid := String

/-- File-system paths (Rust PathBuf), modelled as strings. -/
abbrev Path := String

/-- Live, in-memory session metadata (src/session.rs, struct Session). -/
structure Session where
  id : Uuid
  working_dir : Path
  created_at : String
  log_path : Path
deriving DecidableEq, Repr

/-- Session metadata for list responses (src/session.rs and src/ipc.rs,
struct SessionInfo; the two Rust structs are field-for-field identical). -/
structure SessionInfo where
  id : String
  working_dir : String
  created_at : String
  status : String
  log_path : String
deriving DecidableEq, Repr

/-- Durable per-session record (src/persistence.rs, struct PersistedSession).
The Rust pid field is Option of u32; it is modelled as Option Nat, with the
u32 range enforced where deserialization checks it. -/
structure PersistedSession where
  id : Uuid
  working_dir : Path
  created_at : String
  log_path : Path
  pid : Option Nat
  status : String
deriving DecidableEq, Repr

/-- PersistedSession::from_session (src/persistence.rs lines 40-49). The
status field is hard-coded to "running" regardless of the session's actual
state, and the pid is whatever the caller passes. -/
def PersistedSession.from_session (s : Session) (pid : Option Nat) : PersistedSession :=
  { id := s.id, working_dir := s.working_dir, created_at := s.created_at,
    log_path := s.log_path, pid := pid, status := "running" }

/-- The fragment of JSON values that the state file uses: null, numbers,
strings and objects (serde_json::Value restricted to what
HashMap of Uuid to PersistedSession serializes into). -/
inductive Json where
  | null : Json
  | num : Nat → Json
  | str : String → Json
  | obj : List (String × Json) → Json

/-- View of a JSON value as a string, as serde's string deserializer does. -/
def Json.asStr : Json → Option String
  | .str s => some s
  | _ => none

/-- Serde serialization of one PersistedSession (derive(Serialize) on the
struct): an object with the six fields in declaration order; a missing pid
(None) serializes as null, a present pid as its number. -/
def PersistedSession.toJson (ps : PersistedSession) : Json :=
  .obj [("id", .str ps.id), ("working_dir", .str ps.working_dir),
        ("created_at", .str ps.created_at), ("log_path", .str ps.log_path),
        ("pid", match ps.pid with | some n => .num n | none => .null),
        ("status", .str ps.status)]

/-- Serde deserialization of one PersistedSession (derive(Deserialize)):
the value must be an object carrying every field; null pid gives None and a
numeric pid must fit in u32. Fields are located by name. -/
def PersistedSession.fromJson (j : Json) : Option PersistedSession :=
  match j with
  | .obj fields => do
      let id ← (← fields.lookup "id").asStr
      let wd ← (← fields.lookup "working_dir").asStr
      let ca ← (← fields.lookup "created_at").asStr
      let lp ← (← fields.lookup "log_path").asStr
      let pid ← (match ← fields.lookup "pid" with
                 | .null => some none
                 | .num n => if n < 2 ^ 32 then some (some n) else none
                 | _ => none)
      let status ← (← fields.lookup "status").asStr
      some { id := id, working_dir := wd, created_at := ca, log_path := lp,
             pid := pid, status := status }
  | _ => none

/-- Serde serialization of the whole state map (HashMap of Uuid to
PersistedSession): a JSON object keyed by the uuid strings. -/
def stateToJson (m : List (Uuid × PersistedSession)) : Json :=
  .obj (m.map fun kv => (kv.1, kv.2.toJson))

/-- Entry-by-entry decoding of a JSON object's fields into state-map
entries; any entry that fails to decode fails the whole map, as serde
does. -/
def decodeEntries : List (String × Json) → Option (List (Uuid × PersistedSession))
  | [] => some []
  | kv :: rest => do
      let ps ← PersistedSession.fromJson kv.2
      let tail ← decodeEntries rest
      some ((kv.1, ps) :: tail)

/-- Serde deserialization of the whole state map: the value must be an
object; each field decodes to one entry. -/
def stateFromJson (j : Json) : Option (List (Uuid × PersistedSession)) :=
  match j with
  | .obj fields => decodeEntries fields
  | _ => none

/-- PersistenceManager::write_state (src/persistence.rs lines 99-111):
serializes the full map and atomically replaces the on-disk file via
write-to-temp-then-rename, so after a successful write the file holds
exactly this serialization. -/
def write_state (m : List (Uuid × PersistedSession)) : Json :=
  stateToJson m

/-- PersistenceManager::load_state (src/persistence.rs lines 125-143). The
file argument is none when the state file is missing, otherwise some of its
(JSON) content. A missing file yields the empty map; content that does not
parse as the expected map makes the function return an error — the parse
failure is propagated with context "Failed to parse state file" by the
question-mark operator, not swallowed. -/
def load_state (file : Option Json) : Except String (List (Uuid × PersistedSession)) :=
  match file with
  | none => .ok []
  | some j =>
      match stateFromJson j with
      | some sessions => .ok sessions
      | none => .error "Failed to parse state file"

/-- Runtime-only handle to a spawned PTY subprocess (src/pty.rs, struct
SessionProcess). The pty pair, output task and shutdown channel are OS
resources; the plain-data part kept here is the session id the handle was
created with. Presence of a handle in the manager's process table is what
the manager logic observes. -/
structure SessionProcess where
  session_id : Uuid
deriving DecidableEq, Repr

/-- HashMap::insert modelled on association lists: bind the key, replacing
any previous binding. -/
def hmInsert (m : List (Uuid × α)) (k : Uuid) (v : α) : List (Uuid × α) :=
  (k, v) :: m.filter fun kv => kv.1 != k

/-- HashMap::remove modelled on association lists. -/
def hmRemove (m : List (Uuid × α)) (k : Uuid) : List (Uuid × α) :=
  m.filter fun kv => kv.1 != k

/-- HashMap::get / contains_key modelled on association lists. -/
def hmGet (m : List (Uuid × α)) (k : Uuid) : Option α :=
  List.lookup k m

/-- The SessionManager's shared mutable state (src/manager.rs, struct
SessionManager): the in-memory session table, the live process-handle
table, and — standing for the PersistenceManager's file — the decoded
content of the on-disk state map. -/
structure ManagerState where
  sessions : List (Uuid × Session)
  processes : List (Uuid × SessionProcess)
  disk : List (Uuid × PersistedSession)
deriving DecidableEq, Repr

/-- The map that SessionManager::save_state builds (src/manager.rs lines
185-197): one record per in-memory session, pid taken as
processes.get(id).and_then(of the constant None) — that is, always None,
the TODO in the source — and the record built by
PersistedSession::from_session, whose status is hard-coded "running". -/
def save_state_map (sessions : List (Uuid × Session))
    (processes : List (Uuid × SessionProcess)) : List (Uuid × PersistedSession) :=
  sessions.map fun kv =>
    let pid := (hmGet processes kv.1).bind fun _ => (none : Option Nat)
    (kv.1, PersistedSession.from_session kv.2 pid)

/-- SessionManager::save_state (src/manager.rs lines 181-206): writes
save_state_map through PersistenceManager::write_state. The writeOk flag
injects the write's I/O outcome; a failed write leaves the on-disk file
unchanged (the temp-then-rename in write_state is atomic). -/
def save_state (st : ManagerState) (writeOk : Bool) : Except String ManagerState :=
  if writeOk then .ok { st with disk := save_state_map st.sessions st.processes }
  else .error "Failed to write temp state file"

/-- The status recovery assigns to one persisted record (src/manager.rs
lines 119-130): no pid gives "stale"; a pid the probe reports dead gives
"crashed"; a pid the probe reports alive gives "orphaned". The liveness
probe is injected, per the spec's injectable-boundary note. -/
def recoveredStatus (alive : Nat → Bool) (pid : Option Nat) : String :=
  match pid with
  | some p => if alive p then "orphaned" else "crashed"
  | none => "stale"

/-- The classified copies of the persisted records built inside the
recovery loop (src/manager.rs lines 117-132): each record's status field is
reassigned to recoveredStatus of its pid. In the source these records drive
the per-session log lines and counters, and Sessions are rebuilt from
them. -/
def recoverClassified (alive : Nat → Bool)
    (persisted : List (Uuid × PersistedSession)) : List (Uuid × PersistedSession) :=
  persisted.map fun kv => (kv.1, { kv.2 with status := recoveredStatus alive kv.2.pid })

/-- SessionManager::recover_sessions (src/manager.rs lines 99-168) on an
already-decoded persisted map (load_state models the decoding; a load error
would propagate before this logic runs). An empty map returns at once.
Otherwise every record is classified, a metadata-only Session is rebuilt
from it and inserted into the session table — no process handle is created
— and save_state runs, its failure propagating. -/
def recover_sessions (st : ManagerState) (alive : Nat → Bool) (writeOk : Bool) :
    Except String ManagerState :=
  if st.disk.isEmpty then .ok st
  else
    let classified := recoverClassified alive st.disk
    let sessions' := classified.foldl (fun acc kv =>
      hmInsert acc kv.1
        { id := kv.2.id, working_dir := kv.2.working_dir,
          created_at := kv.2.created_at, log_path := kv.2.log_path }) st.sessions
    save_state { st with sessions := sessions' } writeOk

/-- Environment injected into start_session: directory existence, the fresh
Session that Session::new builds (uuid and timestamp generation), the
outcome of spawn_claude_pty / SessionProcess::new, and whether the
persistence write succeeds. -/
structure StartEnv where
  dirExists : Path → Bool
  newSession : Path → Session
  spawn : Path → Except String Unit
  writeOk : Bool

/-- SessionManager::start_session (src/manager.rs lines 216-250): bails
when the directory does not exist; builds the Session; spawns the PTY
subprocess (failure aborts with context, before any table is touched);
inserts into both tables; saves to disk, a save failure being logged and
swallowed. Returns the new session id alongside the resulting state. -/
def start_session (env : StartEnv) (st : ManagerState) (working_dir : Path) :
    Except String Uuid × ManagerState :=
  if !(env.dirExists working_dir) then
    (.error ("Working directory does not exist: " ++ working_dir), st)
  else
    let session := env.newSession working_dir
    let session_id := session.id
    match env.spawn working_dir with
    | .error e => (.error ("Failed to spawn Claude Code PTY: " ++ e), st)
    | .ok _ =>
        let process : SessionProcess := { session_id := session_id }
        let st1 := { st with sessions := hmInsert st.sessions session_id session }
        let st2 := { st1 with processes := hmInsert st1.processes session_id process }
        let st3 := match save_state st2 env.writeOk with
          | .ok s => s
          | .error _ => st2
        (.ok session_id, st3)

/-- SessionManager::stop_session (src/manager.rs lines 260-281): bails when
the id is not in the session table (nothing mutated); otherwise removes the
session and the process handle from both tables, then saves to disk, a save
failure being logged and swallowed. -/
def stop_session (st : ManagerState) (writeOk : Bool) (session_id : Uuid) :
    Except String Unit × ManagerState :=
  if (hmGet st.sessions session_id).isNone then
    (.error ("Session not found: " ++ session_id), st)
  else
    let st1 := { st with sessions := hmRemove st.sessions session_id }
    let st2 := { st1 with processes := hmRemove st1.processes session_id }
    let st3 := match save_state st2 writeOk with
      | .ok s => s
      | .error _ => st2
    (.ok (), st3)

/-- SessionManager::list_sessions (src/manager.rs lines 293-317): a pure
read over the session table; status is "running" when a live handle exists
for the session's id, else "stale". -/
def list_sessions (st : ManagerState) : List SessionInfo :=
  st.sessions.map fun kv =>
    { id := kv.2.id, working_dir := kv.2.working_dir,
      created_at := kv.2.created_at,
      status := if (hmGet st.processes kv.2.id).isSome then "running" else "stale",
      log_path := kv.2.log_path }

/-- Byte sequences sent through the PTY input side, modelled as character
lists (the Rust code passes str::as_bytes of UTF-8 text). -/
abbrev Bytes := List Char

/-- Rust str::ends_with of a newline character: whether the last element is
a newline. -/
def endsWithNewline (s : Bytes) : Bool :=
  s.getLast? == some '\n'

/-- Observable state of one session's PTY input side: whether
master.take_writer succeeds (the child may already have exited), the bytes
written so far, and the input entries the SessionLogger recorded. -/
structure PtyState where
  writerAvailable : Bool
  written : Bytes
  logged : List Bytes
deriving DecidableEq, Repr

/-- SessionProcess::write_input (src/pty.rs lines 133-148): takes the PTY
writer — failing with "Failed to get PTY writer" when the input side is
unavailable — writes the given bytes exactly as given, flushes, then opens
a logger and logs one input entry. Logger creation can itself fail (the
injected logOk), in which case the call errors after the bytes were already
written. No newline is appended anywhere in this function. -/
def write_input (logOk : Bool) (pty : PtyState) (data : Bytes) :
    Except String Unit × PtyState :=
  if !pty.writerAvailable then (.error "Failed to get PTY writer", pty)
  else
    let wrote := { pty with written := pty.written ++ data }
    if logOk then (.ok (), { wrote with logged := wrote.logged ++ [data] })
    else (.error "logger creation failed", wrote)

/-- SessionManager::send_input (src/manager.rs lines 328-346): looks up the
live handle — failing when there is none — appends a trailing newline to
the text when it does not already end with one, and forwards the result to
SessionProcess::write_input, wrapping a write failure with context. -/
def send_input (logOk : Bool) (procs : List (Uuid × PtyState)) (session_id : Uuid)
    (text : Bytes) : Except String Unit × List (Uuid × PtyState) :=
  match hmGet procs session_id with
  | none => (.error "Session not found or not active (no PTY handle)", procs)
  | some pty =>
      let input := if endsWithNewline text then text else text ++ ['\n']
      match write_input logOk pty input with
      | (.ok _, pty') => (.ok (), hmInsert procs session_id pty')
      | (.error e, pty') =>
          (.error ("Failed to write to PTY: " ++ e), hmInsert procs session_id pty')

/-- IPC request messages (src/ipc.rs, enum Request). -/
inductive Request where
  | startSession (working_dir : Path)
  | listSessions
  | stopSession (session_id : String)
  | sendInput (session_id : String) (text : String)
  | attachSession (session_id : String)
  | ping
  | shutdown

/-- IPC response messages (src/ipc.rs, enum Response). -/
inductive Response where
  | sessionStarted (session_id : String) (log_path : String)
  | sessionList (sessions : List SessionInfo)
  | sessionStopped (session_id : String)
  | logChunk (session_id : String) (data : String)
  | pong
  | ok
  | error (message : String)

/-- Daemon::handle_request (src/daemon.rs lines 130-199), with
Uuid::parse_str injected as parseUuid. The source match covers
StartSession, ListSessions, StopSession, AttachSession, Ping and Shutdown;
it has no arm at all for SendInput, so the dispatch is modelled as a
partial function that is `none` exactly there — the request is neither
forwarded to SessionManager::send_input nor answered. Shutdown also
broadcasts the shutdown signal, an effect outside this state. -/
def handle_request (env : StartEnv) (parseUuid : String → Option Uuid)
    (st : ManagerState) : Request → Option (Response × ManagerState)
  | .startSession working_dir =>
      match start_session env st working_dir with
      | (.ok session_id, st') =>
          match (list_sessions st').find? (fun s => s.id == session_id) with
          | some s => some (.sessionStarted s.id s.log_path, st')
          | none => some (.error "Session started but not found in list", st')
      | (.error e, st') => some (.error ("Failed to start session: " ++ e), st')
  | .listSessions => some (.sessionList (list_sessions st), st)
  | .stopSession session_id =>
      match parseUuid session_id with
      | some uuid =>
          match stop_session st env.writeOk uuid with
          | (.ok _, st') => some (.sessionStopped session_id, st')
          | (.error e, st') => some (.error ("Failed to stop session: " ++ e), st')
      | none => some (.error "Invalid session ID format", st)
  | .sendInput _ _ => none
  | .attachSession _ => some (.error "Attach not implemented yet", st)
  | .ping => some (.pong, st)
  | .shutdown => some (.ok, st)

/-- Result of the kill(pid, 0) probe syscall as the unix branch of
is_process_alive observes it (src/persistence.rs lines 176-208): the call
succeeds (returns 0), or fails because no such process exists (ESRCH), or
fails because the caller may not signal the — existing — process
(EPERM). -/
inductive KillResult where
  | ok : KillResult
  | esrch : KillResult
  | eperm : KillResult
deriving DecidableEq, Repr

/-- is_process_alive (src/persistence.rs lines 176-208, unix branch):
returns exactly whether libc::kill(pid, 0) returned 0, the syscall being
injected as kill0. Any failure — ESRCH or EPERM alike — yields false. -/
def is_process_alive (kill0 : Nat → KillResult) (pid : Nat) : Bool :=
  match kill0 pid with
  | .ok => true
  | _ => false

/-- POSIX contract of kill(pid, 0): success means a process with that pid
exists; EPERM also means the process exists (only signalling permission is
missing); ESRCH means no process with that pid exists. The alive function
is the ground truth of pid liveness. -/
def PosixKill (alive : Nat → Bool) (kill0 : Nat → KillResult) : Prop :=
  ∀ pid, (kill0 pid = .ok → alive pid = true) ∧
         (kill0 pid = .eperm → alive pid = true) ∧
         (kill0 pid = .esrch → alive pid = false)

/-- Concrete session used by witnesses. -/
def sessionSample : Session :=
  { id := "11111111-1111-1111-1111-111111111111", working_dir := "/tmp/w",
    created_at := "2024-01-01T00:00:00Z", log_path := "/tmp/w.jsonl" }

/-- Concrete persisted record with a recorded pid, used by witnesses. -/
def persistedSample : PersistedSession :=
  { id := "11111111-1111-1111-1111-111111111111", working_dir := "/tmp/w",
    created_at := "2024-01-01T00:00:00Z", log_path := "/tmp/w.jsonl",
    pid := some 12345, status := "running" }

/-- Concrete persisted record with no recorded pid. -/
def persistedStale : PersistedSession :=
  { persistedSample with pid := none }

/-- The classified copy of persistedSample under an all-alive probe. -/
def classifiedSample : Uuid × PersistedSession :=
  (persistedSample.id, { persistedSample with status := "orphaned" })

/-- One-record state map used by the round-trip witness. -/
def stateSample : List (Uuid × PersistedSession) :=
  [(persistedSample.id, persistedSample)]

/-- Empty manager state. -/
def stEmpty : ManagerState :=
  { sessions := [], processes := [], disk := [] }

/-- Manager state holding one pid-less persisted record on disk, fed to
recovery. -/
def recoverDiskState : ManagerState :=
  { sessions := [], processes := [], disk := [(persistedStale.id, persistedStale)] }

/-- Environment whose directory probe always fails. -/
def envNoDir : StartEnv :=
  { dirExists := fun _ => false,
    newSession := fun d => { sessionSample with working_dir := d },
    spawn := fun _ => .ok (), writeOk := true }

/-- Environment whose directory probe succeeds but whose PTY spawn fails. -/
def envSpawnFail : StartEnv :=
  { dirExists := fun _ => true,
    newSession := fun d => { sessionSample with working_dir := d },
    spawn := fun _ => .error "pty open failed", writeOk := true }

/-- PTY whose input side is available and untouched. -/
def ptyOpen : PtyState :=
  { writerAvailable := true, written := [], logged := [] }

/-- PTY whose input side is gone (child exited). -/
def ptyClosed : PtyState :=
  { writerAvailable := false, written := [], logged := [] }

/-- Ground-truth liveness in which exactly pid 42 is a live process. -/
def aliveOnly42 : Nat → Bool := fun pid => pid == 42

/-- A POSIX-conformant kill in which pid 42 exists but belongs to another
user: probing it fails with EPERM; every other pid is unused (ESRCH). -/
def killEperm42 : Nat → KillResult :=
  fun pid => if pid == 42 then .eperm else .esrch

/-- Ground-truth liveness with no live process at all. -/
def aliveNever : Nat → Bool := fun _ => false

/-- A kill that reports every pid unused. -/
def killAllEsrch : Nat → KillResult := fun _ => KillResult.esrch

/-- Looking up the key just inserted returns the inserted value. -/
theorem hmGet_insert_self (m : List (Uuid × α)) (k : Uuid) (v : α) :
    hmGet (hmInsert m k v) k = some v := by
  simp [hmGet, hmInsert, List.lookup]

/-- Deserializing the serialization of one record returns the record, for
pids in u32 range. -/
theorem fromJson_toJson (ps : PersistedSession)
    (h : ∀ n, ps.pid = some n → n < 2 ^ 32) :
    PersistedSession.fromJson ps.toJson = some ps := by
  obtain ⟨id, wd, ca, lp, pid, status⟩ := ps
  cases pid with
  | none =>
      simp [PersistedSession.toJson, PersistedSession.fromJson, Json.asStr, List.lookup]
  | some p =>
      have hp : p < 4294967296 := by have := h p rfl; omega
      simp [PersistedSession.toJson, PersistedSession.fromJson, Json.asStr, List.lookup, hp]

/-- Decoding the entry-wise serialization of a state map returns the map,
for pids in u32 range. -/
theorem decodeEntries_toJson (m : List (Uuid × PersistedSession))
    (h : ∀ kv ∈ m, ∀ n, kv.2.pid = some n → n < 2 ^ 32) :
    decodeEntries (m.map fun kv => (kv.1, kv.2.toJson)) = some m := by
  induction m with
  | nil => rfl
  | cons kv rest ih =>
      have h1 : PersistedSession.fromJson kv.2.toJson = some kv.2 :=
        fromJson_toJson kv.2 (h kv (List.mem_cons_self kv rest))
      have h2 := ih fun kv' hkv' => h kv' (List.mem_cons_of_mem kv hkv')
      simp [decodeEntries, h1, h2]

/-- C1: for every persisted record processed by recover_sessions, the
assigned status is the pure function recoveredStatus of the record's pid
and the liveness probe's answer — absent pid gives "stale", dead pid gives
"crashed", alive pid gives "orphaned" — and is never "running". -/
theorem recover_classification_rule (alive : Nat → Bool)
    (persisted : List (Uuid × PersistedSession)) (kv : Uuid × PersistedSession)
    (hmem : kv ∈ recoverClassified alive persisted) :
    kv.2.status = recoveredStatus alive kv.2.pid ∧
    (kv.2.pid = none → kv.2.status = "stale") ∧
    (∀ p, kv.2.pid = some p → alive p = false → kv.2.status = "crashed") ∧
    (∀ p, kv.2.pid = some p → alive p = true → kv.2.status = "orphaned") ∧
    kv.2.status ≠ "running" := by
  obtain ⟨orig, -, rfl⟩ := List.mem_map.mp hmem
  cases hpid : orig.2.pid with
  | none => simp [recoveredStatus, hpid]
  | some p =>
      cases halive : alive p with
      | false => simp [recoveredStatus, hpid, halive]
      | true => simp [recoveredStatus, hpid, halive]

/-- C1 witness: the classification of a concrete record with a live pid. -/
theorem recover_classification_rule_witness :
    classifiedSample.2.status =
      recoveredStatus (fun _ => true) classifiedSample.2.pid ∧
    classifiedSample.2.status ≠ "running" :=
  ⟨(recover_classification_rule (fun _ => true)
      [(persistedSample.id, persistedSample)] classifiedSample (by decide)).1,
   (recover_classification_rule (fun _ => true)
      [(persistedSample.id, persistedSample)] classifiedSample (by decide)).2.2.2.2⟩

/-- C2: the state file's missing-file path does return the empty map, but a
file whose content is not the expected JSON map makes load_state return an
error — the parse failure propagates instead of being swallowed into an
empty map, contradicting both the claim and the function's own
documentation. -/
theorem load_state_error_on_unparseable :
    load_state (some (Json.str "garbage")) = .error "Failed to parse state file" ∧
    load_state none = .ok [] :=
  ⟨rfl, rfl⟩

/-- C3: writing any non-empty state map with write_state and loading the
written content with load_state returns the same map, the optional pid
field included (pids being u32 in the source type). -/
theorem write_load_roundtrip (m : List (Uuid × PersistedSession))
    (_hne : m ≠ [])
    (hpid : ∀ kv ∈ m, ∀ n, kv.2.pid = some n → n < 2 ^ 32) :
    load_state (some (write_state m)) = .ok m := by
  have h := decodeEntries_toJson m hpid
  simp [load_state, write_state, stateToJson, stateFromJson, h]

/-- C3 witness: round trip of a concrete one-record map carrying a pid. -/
theorem write_load_roundtrip_witness :
    load_state (some (write_state stateSample)) = .ok stateSample := by
  refine write_load_roundtrip stateSample (by simp [stateSample]) ?_
  intro kv hkv n hn
  simp only [stateSample, List.mem_singleton] at hkv
  subst hkv
  simp only [persistedSample, Option.some.injEq] at hn
  omega

/-- C4: recovery's re-persist step does not store the classified statuses:
on a disk holding one pid-less record — classified "stale" — the state
written back by recover_sessions via save_state carries status "running"
(and pid none), because save_state rebuilds every record through
PersistedSession::from_session, which hard-codes "running". -/
theorem recovery_repersists_running :
    recover_sessions recoverDiskState (fun _ => false) true =
      .ok { sessions := [(persistedStale.id, sessionSample)], processes := [],
            disk := [(persistedStale.id, persistedStale)] } ∧
    recoveredStatus (fun _ => false) persistedStale.pid = "stale" ∧
    persistedStale.status = "running" :=
  ⟨rfl, rfl, rfl⟩

/-- C5: start_session on a non-existent directory fails with the validation
error and returns the state unchanged — session table, process table and
disk all untouched — and a PTY spawn failure likewise aborts with no
mutation. -/
theorem start_session_error_paths_no_mutation (env : StartEnv) (st : ManagerState)
    (working_dir : Path) :
    (env.dirExists working_dir = false →
        start_session env st working_dir =
          (.error ("Working directory does not exist: " ++ working_dir), st)) ∧
    (env.dirExists working_dir = true → ∀ e, env.spawn working_dir = .error e →
        start_session env st working_dir =
          (.error ("Failed to spawn Claude Code PTY: " ++ e), st)) := by
  constructor
  · intro h
    simp [start_session, h]
  · intro h e he
    simp [start_session, h, he]

/-- C5 witness: both failure paths at a concrete state and directory. -/
theorem start_session_error_paths_no_mutation_witness :
    start_session envNoDir stEmpty "/nope" =
      (.error ("Working directory does not exist: " ++ "/nope"), stEmpty) ∧
    start_session envSpawnFail stEmpty "/tmp/w" =
      (.error ("Failed to spawn Claude Code PTY: " ++ "pty open failed"), stEmpty) :=
  ⟨(start_session_error_paths_no_mutation envNoDir stEmpty "/nope").1 rfl,
   (start_session_error_paths_no_mutation envSpawnFail stEmpty "/tmp/w").2 rfl
     "pty open failed" rfl⟩

/-- C6: stop_session on an id absent from the session table fails with the
not-found error, leaves the state unchanged, and a subsequent
list_sessions returns exactly what it returned before. -/
theorem stop_session_unknown_id_no_mutation (st : ManagerState) (writeOk : Bool)
    (session_id : Uuid) (h : hmGet st.sessions session_id = none) :
    stop_session st writeOk session_id =
      (.error ("Session not found: " ++ session_id), st) ∧
    list_sessions (stop_session st writeOk session_id).2 = list_sessions st := by
  have h1 : stop_session st writeOk session_id =
      (.error ("Session not found: " ++ session_id), st) := by
    simp [stop_session, h]
  exact ⟨h1, by rw [h1]⟩

/-- C6 witness: stopping an unknown id on the empty state. -/
theorem stop_session_unknown_id_no_mutation_witness :
    stop_session stEmpty true "missing-id" =
      (.error ("Session not found: " ++ "missing-id"), stEmpty) ∧
    list_sessions (stop_session stEmpty true "missing-id").2 = list_sessions stEmpty :=
  stop_session_unknown_id_no_mutation stEmpty true "missing-id" rfl

/-- C7: the daemon's request dispatch has no arm for SendInput — the match
in Daemon::handle_request covers every other request kind — so a SendInput
request is neither forwarded to SessionManager::send_input nor answered
with any response: the dispatch is undefined (none) there. -/
theorem handle_request_send_input_missing (env : StartEnv)
    (parseUuid : String → Option Uuid) (st : ManagerState)
    (session_id text : String) :
    handle_request env parseUuid st (.sendInput session_id text) = none :=
  rfl

/-- C8 counterexample: a successful write_input of bytes that do not end in
a newline writes exactly those bytes — no newline is appended by
write_input itself, so the bytes on the PTY input side do not end in a
newline. -/
theorem write_input_counterexample :
    (write_input true ptyOpen ['h', 'i']).1 = .ok () ∧
    (write_input true ptyOpen ['h', 'i']).2.written = ['h', 'i'] ∧
    endsWithNewline (write_input true ptyOpen ['h', 'i']).2.written = false :=
  ⟨rfl, rfl, by decide⟩

/-- C8 amended: write_input writes the given bytes verbatim (appending
nothing), fails with the PTY-writer error and no state change when the
input side is unavailable, and logs one input entry on success; the
trailing newline is appended by the manager's send_input, so every byte
sequence forwarded through send_input reaches the PTY ending in a
newline. -/
theorem write_input_amended (logOk : Bool) (pty : PtyState) (data text : Bytes) :
    (pty.writerAvailable = false →
        write_input logOk pty data = (.error "Failed to get PTY writer", pty)) ∧
    (pty.writerAvailable = true →
        (write_input logOk pty data).2.written = pty.written ++ data) ∧
    endsWithNewline (if endsWithNewline text then text else text ++ ['\n']) = true ∧
    (∀ procs session_id, hmGet procs session_id = some pty →
        pty.writerAvailable = true → logOk = true →
        hmGet (send_input logOk procs session_id text).2 session_id =
          some { pty with
                 written := pty.written ++
                   (if endsWithNewline text then text else text ++ ['\n']),
                 logged := pty.logged ++
                   [if endsWithNewline text then text else text ++ ['\n']] }) := by
  refine ⟨?_, ?_, ?_, ?_⟩
  · intro h
    simp [write_input, h]
  · intro h
    cases logOk <;> simp [write_input, h]
  · cases hn : endsWithNewline text with
    | true => simpa using hn
    | false => simp [endsWithNewline]
  · intro procs session_id hget havail hlog
    subst hlog
    simp [send_input, hget, write_input, havail, hmGet_insert_self]

/-- C8 witness: the amended statement at concrete PTYs, bytes and table. -/
theorem write_input_amended_witness :
    write_input true ptyClosed ['h', 'i'] = (.error "Failed to get PTY writer", ptyClosed) ∧
    (write_input true ptyOpen ['h', 'i']).2.written = ptyOpen.written ++ ['h', 'i'] ∧
    endsWithNewline (if endsWithNewline ['h', 'i'] then ['h', 'i']
                     else ['h', 'i'] ++ ['\n']) = true ∧
    hmGet (send_input true [("s", ptyOpen)] "s" ['h', 'i']).2 "s" =
      some { ptyOpen with
             written := ptyOpen.written ++
               (if endsWithNewline ['h', 'i'] then ['h', 'i'] else ['h', 'i'] ++ ['\n']),
             logged := ptyOpen.logged ++
               [if endsWithNewline ['h', 'i'] then ['h', 'i'] else ['h', 'i'] ++ ['\n']] } :=
  ⟨(write_input_amended true ptyClosed ['h', 'i'] ['h', 'i']).1 rfl,
   (write_input_amended true ptyOpen ['h', 'i'] ['h', 'i']).2.1 rfl,
   (write_input_amended true ptyOpen ['h', 'i'] ['h', 'i']).2.2.1,
   (write_input_amended true ptyOpen ['h', 'i'] ['h', 'i']).2.2.2
     [("s", ptyOpen)] "s" rfl rfl rfl⟩

/-- C9 counterexample: under the POSIX kill contract there is a world in
which pid 42 belongs to a live process the daemon may not signal (kill
gives EPERM), and is_process_alive returns false for it — so the function
can return false for a pid that currently belongs to a live process. -/
theorem is_process_alive_counterexample :
    PosixKill aliveOnly42 killEperm42 ∧ aliveOnly42 42 = true ∧
    is_process_alive killEperm42 42 = false := by
  refine ⟨fun pid => ?_, rfl, rfl⟩
  by_cases h : pid = 42 <;>
    simp [aliveOnly42, killEperm42, is_process_alive, h]

/-- C9 amended: a false answer from is_process_alive means the probe
reported ESRCH (no such process) or EPERM (an existing process the daemon
may not signal); whenever the EPERM case is excluded — in particular for
the daemon's own child processes — a false answer does imply that no live
process owns the pid. False positives remain permitted. -/
theorem is_process_alive_conservative (alive : Nat → Bool) (kill0 : Nat → KillResult)
    (hposix : PosixKill alive kill0) (pid : Nat) :
    (is_process_alive kill0 pid = false →
        kill0 pid = KillResult.esrch ∨ kill0 pid = KillResult.eperm) ∧
    (kill0 pid ≠ KillResult.eperm → is_process_alive kill0 pid = false →
        alive pid = false) := by
  obtain ⟨hok, heperm, hesrch⟩ := hposix pid
  constructor
  · intro hfalse
    cases hk : kill0 pid with
    | ok => rw [is_process_alive, hk] at hfalse; cases hfalse
    | esrch => exact .inl rfl
    | eperm => exact .inr rfl
  · intro hne hfalse
    cases hk : kill0 pid with
    | ok => rw [is_process_alive, hk] at hfalse; cases hfalse
    | esrch => exact hesrch hk
    | eperm => exact absurd hk hne

/-- C9 witness: the amended statement applied in a world where every pid is
unused and the probe reports ESRCH everywhere. -/
theorem is_process_alive_conservative_witness : aliveNever 7 = false :=
  (is_process_alive_conservative aliveNever killAllEsrch
    (fun _ => ⟨fun h => KillResult.noConfusion h, fun h => KillResult.noConfusion h,
               fun _ => rfl⟩) 7).2
    (fun h => KillResult.noConfusion h) rfl

/-- C10: every record save_state writes has status "running" and pid none
— whatever the tables hold — and therefore every record recovered from
state that save_state wrote is classified "stale" under any liveness
probe: "crashed" and "orphaned" are unreachable from the daemon's own
persisted output. -/
theorem save_state_records_running_then_stale (sessions : List (Uuid × Session))
    (processes : List (Uuid × SessionProcess)) (alive : Nat → Bool) :
    (∀ kv ∈ save_state_map sessions processes,
        kv.2.status = "running" ∧ kv.2.pid = none) ∧
    (∀ kv ∈ recoverClassified alive (save_state_map sessions processes),
        kv.2.status = "stale") := by
  constructor
  · intro kv hkv
    obtain ⟨orig, -, rfl⟩ := List.mem_map.mp hkv
    cases hg : hmGet processes orig.1 <;>
      simp [PersistedSession.from_session, hg]
  · intro kv hkv
    obtain ⟨mid, hmid, rfl⟩ := List.mem_map.mp hkv
    obtain ⟨orig, -, rfl⟩ := List.mem_map.mp hmid
    cases hg : hmGet processes orig.1 <;>
      simp [PersistedSession.from_session, recoveredStatus, hg]

/-- C10 witness: the record save_state builds for a concrete session table,
and its classification after a restart. -/
theorem save_state_records_running_then_stale_witness :
    ((PersistedSession.from_session sessionSample none).status = "running" ∧
     (PersistedSession.from_session sessionSample none).pid = none) ∧
    ({ PersistedSession.from_session sessionSample none with
       status := recoveredStatus (fun _ => true)
         (PersistedSession.from_session sessionSample none).pid }).status = "stale" :=
  ⟨(save_state_records_running_then_stale [("s", sessionSample)] [] (fun _ => true)).1
     ("s", PersistedSession.from_session sessionSample none) (by decide),
   (save_state_records_running_then_stale [("s", sessionSample)] [] (fun _ => true)).2
     ("s", { PersistedSession.from_session sessionSample none with
             status := recoveredStatus (fun _ => true)
               (PersistedSession.from_session sessionSample none).pid }) (by decide)⟩

end ClaudeSessions
